import Mathlib

/-!
Shallow embedding of `src/Plotter.py` (repository `stock-pattern`).

The embedding models the pure decision logic of the `Plotter` class:
overlay construction (`Plotter.plot` lines 133-138 and 162-165,
`Plotter.save` lines 72-75), view-window selection (`Plotter.plot`
lines 115-131), annotation placement (`Plotter._annotations`), the
keyboard navigation state machine (`Plotter._on_key_press`), and the
missing-data error paths of `plot` and `save`.

Timestamps are modelled as `Nat`, prices as `Int`; pandas index lookups
(`df.index.get_loc`) are modelled as first-match search over a list of
bars, and a multi-match `slice` result collapsing to `slice.start` is
exactly the first matching position.  Python exceptions (`KeyError`,
`IndexError`, `ValueError`) are modelled with `Except String`.
-/

/-- One OHLC bar of a price series.  Only the `High` and `Close`
columns are read by `Plotter`, so only those prices are modelled,
together with the bar's index timestamp. -/
structure Bar where
  ts : Nat
  high : Int
  close : Int
  deriving Repr, DecidableEq

/-- Model of `df.index.get_loc(key)` on a list-of-bars series: position of the
first bar whose timestamp equals `key` (a pandas multi-match `slice`
collapses to its `start`, i.e. the first match; the code in
`Plotter.plot` lines 119-123 does exactly that), `none` when the key is
absent (pandas raises `KeyError`). -/
def getLoc (df : List Bar) (key : Nat) : Option Nat :=
  df.findIdx? (fun b => b.ts = key)

/-- One entry of a `lines` / `extra_lines` / `touch_points` sequence:
either a bare `(timestamp, price)` point or a multi-point segment
(Python distinguishes them by `isinstance(line[0], (list, tuple))` in
`Plotter._annotations` line 203). -/
inductive LineEntry where
  | pt : Nat → Int → LineEntry
  | seg : List (Nat × Int) → LineEntry
  deriving Repr, DecidableEq

/-- Model of `x, y = line[0] if isinstance(line[0], (list, tuple)) else line`
(`Plotter._annotations` line 203): a bare point is its own anchor, a
segment is reduced to its first anchor point; an empty segment raises
`IndexError`, modelled as `none`. -/
def firstAnchor : LineEntry → Option (Nat × Int)
  | .pt x y => some (x, y)
  | .seg pts => pts.head?

/-- One detected pattern record (the `dct` dictionaries consumed by
`Plotter.plot` / `Plotter.save`).  `extra_lines` is `Option` because
the code reads it with `dct["extra_lines"]` (KeyError when absent) in
the triangle branch and `dct.get("extra_lines", [])` otherwise;
`y_close` is the optional `referenceClose` override. -/
structure PatternRecord where
  sym : String
  pattern : String
  lines : List LineEntry
  extra_lines : Option (List LineEntry)
  touch_points : List LineEntry
  startTs : Nat
  endTs : Nat
  y_close : Option Int
  deriving Repr, DecidableEq

/-- Test `pattern in ("Symmetric", "Ascending", "Descending")`
(`Plotter.plot` line 133, `Plotter.save` line 72). -/
def isTriangle (pattern : String) : Bool :=
  pattern = "Symmetric" || pattern = "Ascending" || pattern = "Descending"

/-- Test `pattern in ("UPTL", "DNTL")` (`Plotter.plot` line 162). -/
def isSingleTrendline (pattern : String) : Bool :=
  pattern = "UPTL" || pattern = "DNTL"

/-- The `colors` value handed to mplfinance: either a single color
string applied uniformly to every segment, or one color per segment. -/
inductive Colors where
  | uniform : String → Colors
  | perLine : List String → Colors
  deriving Repr, DecidableEq

/-- Result of the overlay computation inside `Plotter.plot`: the
`alines` line list and `colors` (lines 133-138) together with the
`line_data` used as annotation source (lines 162-165). -/
structure Overlay where
  lines : List LineEntry
  colors : Colors
  annotationSource : List LineEntry
  deriving Repr, DecidableEq

/-- Overlay construction of `Plotter.plot`, lines 133-138 and 162-165.
Triangle kinds: `lines = dct["extra_lines"]` (KeyError when the key is
absent), a single uniform color, annotation source `dct["lines"]`.
Other kinds: `lines = list(dct.get("extra_lines", [])) + list(dct["lines"])`,
`colors = ("green",) + ("midnightblue",) * (len(lines) - 1)`, and the
annotation source is `dct["touch_points"]` for UPTL/DNTL, else
`dct["lines"]`. -/
def buildOverlay (dct : PatternRecord) : Except String Overlay :=
  if isTriangle dct.pattern then
    match dct.extra_lines with
    | none => .error "KeyError: extra_lines"
    | some ls =>
        .ok { lines := ls
              colors := .uniform "midnightblue"
              annotationSource := dct.lines }
  else
    let ls := dct.extra_lines.getD [] ++ dct.lines
    .ok { lines := ls
          colors := .perLine ("green" :: List.replicate (ls.length - 1) "midnightblue")
          annotationSource :=
            if isSingleTrendline dct.pattern then dct.touch_points else dct.lines }

/-- C1: For every record whose patternType is one of the triangle kinds
(Symmetric, Ascending, Descending), the overlay build returns lines
equal to the record's extraLines, a single uniform color applied to
every segment regardless of segment count, and uses the record's
primaryLines as the annotation source. -/
theorem c1_triangle_overlay (dct : PatternRecord) (els : List LineEntry)
    (htri : isTriangle dct.pattern = true)
    (hels : dct.extra_lines = some els) :
    buildOverlay dct =
      .ok { lines := els
            colors := .uniform "midnightblue"
            annotationSource := dct.lines } := by
  simp [buildOverlay, htri, hels]

theorem c1_triangle_overlay_witness :
    buildOverlay
      { sym := "SBIN", pattern := "Symmetric"
        lines := [.seg [(0, 5), (2, 7)], .seg [(1, 3), (2, 4)]]
        extra_lines := some [.seg [(0, 5), (1, 3)]]
        touch_points := [], startTs := 0, endTs := 2, y_close := none } =
      .ok { lines := [.seg [(0, 5), (1, 3)]]
            colors := .uniform "midnightblue"
            annotationSource := [.seg [(0, 5), (2, 7)], .seg [(1, 3), (2, 4)]] } :=
  c1_triangle_overlay _ _ (by decide) rfl

/-- C2: For every record whose patternType is not a triangle kind, with
N extra lines (empty when absent) and M primary lines, the overlay
build returns exactly N+M line segments with the extra lines preceding
the primary lines, the first segment's color (green) differing from the
uniform color (midnightblue) of all remaining segments whenever
N+M > 1, and the annotation source is touchPoints when the patternType
is a single-trendline kind (UPTL/DNTL) and primaryLines otherwise. -/
theorem c2_nontriangle_overlay (dct : PatternRecord)
    (htri : isTriangle dct.pattern = false) :
    ∃ o, buildOverlay dct = .ok o ∧
      o.lines = dct.extra_lines.getD [] ++ dct.lines ∧
      o.lines.length = (dct.extra_lines.getD []).length + dct.lines.length ∧
      o.colors = .perLine ("green" ::
        List.replicate ((dct.extra_lines.getD []).length + dct.lines.length - 1)
          "midnightblue") ∧
      ("green" : String) ≠ "midnightblue" ∧
      o.annotationSource =
        (if isSingleTrendline dct.pattern then dct.touch_points else dct.lines) := by
  refine ⟨{ lines := dct.extra_lines.getD [] ++ dct.lines
            colors := .perLine ("green" ::
              List.replicate ((dct.extra_lines.getD []).length + dct.lines.length - 1)
                "midnightblue")
            annotationSource :=
              if isSingleTrendline dct.pattern then dct.touch_points else dct.lines },
    ?_, rfl, List.length_append .., rfl, by decide, rfl⟩
  simp [buildOverlay, htri, List.length_append]

theorem c2_nontriangle_overlay_witness :
    ∃ o, buildOverlay
      { sym := "TCS", pattern := "UPTL"
        lines := [.seg [(3, 9), (5, 11)]]
        extra_lines := some [.pt 4 8]
        touch_points := [.pt 3 9, .pt 5 11], startTs := 3, endTs := 5
        y_close := none } = .ok o ∧
      o.lines = [.pt 4 8] ++ [.seg [(3, 9), (5, 11)]] ∧
      o.lines.length = 1 + 1 ∧
      o.colors = .perLine ("green" :: List.replicate (1 + 1 - 1) "midnightblue") ∧
      ("green" : String) ≠ "midnightblue" ∧
      o.annotationSource = [.pt 3 9, .pt 5 11] := by
  have h := c2_nontriangle_overlay
    { sym := "TCS", pattern := "UPTL"
      lines := [.seg [(3, 9), (5, 11)]]
      extra_lines := some [.pt 4 8]
      touch_points := [.pt 3 9, .pt 5 11], startTs := 3, endTs := 5
      y_close := none } (by decide)
  simpa using h

/-- Navigation state mutated by `Plotter._on_key_press`: the current
chart index `idx` and the pending digit buffer `idx_str`.  The list's
last index (`self.len = len(data) - 1`) is fixed per session and passed
separately. -/
structure NavState where
  idx : Nat
  idx_str : String
  deriving Repr, DecidableEq

/-- Observable effect of one key press: a right-aligned alert title
(`self._alert(msg)`), a full re-render (`plt.close("all"); self.plot()`),
or a bare `return` with no visible effect. -/
inductive Effect where
  | alert : String → Effect
  | rerender : Effect
  | ignored : Effect
  deriving Repr, DecidableEq

/-- Python `str.isdigit`: non-empty and every character a digit
(stated over the string's character list). -/
def pyIsdigit (s : String) : Bool :=
  !s.data.isEmpty && s.data.all Char.isDigit

/-- Python `int(...)` on a string of decimal digits. -/
def pyInt (s : String) : Nat :=
  s.data.foldl (fun acc c => acc * 10 + (c.toNat - 48)) 0

theorem pyIsdigit_n : pyIsdigit "n" = false := by decide

theorem pyIsdigit_p : pyIsdigit "p" = false := by decide

theorem pyIsdigit_j : pyIsdigit "j" = false := by decide

theorem pyIsdigit_escape : pyIsdigit "escape" = false := by decide

/-- Model of `Plotter._on_key_press` (lines 213-255).  Digits append to
`idx_str` and alert `"{idx_str}j"`; unrecognized keys return with no
effect; `escape` clears the buffer and the alert; `j` with an empty
buffer is a no-op, with an out-of-range target (`idx > self.len`)
clears the buffer and alerts empty, otherwise jumps; `n` past the last
index alerts "At Last Chart" and returns early (buffer untouched),
otherwise increments; `p` at index 0 alerts "At First Chart" and
returns early, otherwise decrements.  Every path that falls through to
line 253 clears the buffer and re-renders. -/
def onKeyPress (len : Nat) (s : NavState) (key : String) : NavState × Effect :=
  if pyIsdigit key then
    ({ s with idx_str := s.idx_str ++ key }, .alert (s.idx_str ++ key ++ "j"))
  else if ¬(key = "n" ∨ key = "p" ∨ key = "j" ∨ key = "escape") then
    (s, .ignored)
  else if key = "escape" then
    ({ s with idx_str := "" }, .alert "")
  else if key = "j" then
    if s.idx_str = "" then (s, .ignored)
    else if len < pyInt s.idx_str then ({ s with idx_str := "" }, .alert "")
    else ({ idx := pyInt s.idx_str, idx_str := "" }, .rerender)
  else if key = "n" then
    if len ≤ s.idx then (s, .alert "At Last Chart")
    else ({ idx := s.idx + 1, idx_str := "" }, .rerender)
  else
    if s.idx = 0 then (s, .alert "At First Chart")
    else ({ idx := s.idx - 1, idx_str := "" }, .rerender)

/-- Iterate `k` repeated presses of the same key, tracking only the state. -/
def iterKey (len : Nat) (key : String) : Nat → NavState → NavState
  | 0, s => s
  | k + 1, s => iterKey len key k (onKeyPress len s key).1

/-- C4: a `next` press when `idx == len` emits the "At Last Chart"
alert and leaves the state (position and buffer) unchanged with no
re-render, and a `previous` press when `idx == 0` emits "At First
Chart" and leaves the state unchanged with no re-render; both hold
under arbitrary repetition of the press at the boundary. -/
theorem c4_boundary_nav (len : Nat) (s : NavState) :
    (s.idx = len → onKeyPress len s "n" = (s, .alert "At Last Chart")) ∧
    (s.idx = 0 → onKeyPress len s "p" = (s, .alert "At First Chart")) ∧
    (s.idx = len → ∀ k, iterKey len "n" k s = s) ∧
    (s.idx = 0 → ∀ k, iterKey len "p" k s = s) := by
  have hn : s.idx = len → onKeyPress len s "n" = (s, .alert "At Last Chart") := by
    intro h
    simp [onKeyPress, pyIsdigit_n, h]
  have hp : s.idx = 0 → onKeyPress len s "p" = (s, .alert "At First Chart") := by
    intro h
    simp [onKeyPress, pyIsdigit_p, h]
  refine ⟨hn, hp, fun h k => ?_, fun h k => ?_⟩
  · induction k with
    | zero => rfl
    | succ k ih => rw [iterKey, hn h]; exact ih
  · induction k with
    | zero => rfl
    | succ k ih => rw [iterKey, hp h]; exact ih

theorem c4_boundary_nav_witness :
    onKeyPress 2 { idx := 2, idx_str := "" } "n" =
      ({ idx := 2, idx_str := "" }, .alert "At Last Chart") ∧
    iterKey 2 "n" 5 { idx := 2, idx_str := "" } = { idx := 2, idx_str := "" } ∧
    onKeyPress 2 { idx := 0, idx_str := "" } "p" =
      ({ idx := 0, idx_str := "" }, .alert "At First Chart") ∧
    iterKey 2 "p" 5 { idx := 0, idx_str := "" } = { idx := 0, idx_str := "" } :=
  ⟨(c4_boundary_nav 2 _).1 rfl, (c4_boundary_nav 2 _).2.2.1 rfl 5,
   (c4_boundary_nav 2 _).2.1 rfl, (c4_boundary_nav 2 _).2.2.2 rfl 5⟩

/-- C5: a `j` (confirm-jump) press with a non-empty digit buffer parses
the buffer as integer n; if n > len the buffer is cleared, an empty
alert is emitted and the position is unchanged (no exception, no
re-render); if n ≤ len the position is set to n, the buffer is cleared
and a re-render occurs; a `j` press with an empty buffer is a no-op. -/
theorem c5_confirm_jump (len : Nat) (s : NavState) :
    (s.idx_str ≠ "" → len < pyInt s.idx_str →
      onKeyPress len s "j" = ({ s with idx_str := "" }, .alert "")) ∧
    (s.idx_str ≠ "" → pyInt s.idx_str ≤ len →
      onKeyPress len s "j" = ({ idx := pyInt s.idx_str, idx_str := "" }, .rerender)) ∧
    (s.idx_str = "" → onKeyPress len s "j" = (s, .ignored)) := by
  refine ⟨fun hne hgt => ?_, fun hne hle => ?_, fun he => ?_⟩
  · simp [onKeyPress, pyIsdigit_j, hne, hgt]
  · simp [onKeyPress, pyIsdigit_j, hne, Nat.not_lt.mpr hle]
  · simp [onKeyPress, pyIsdigit_j, he]

theorem c5_confirm_jump_witness :
    onKeyPress 9 { idx := 0, idx_str := "5" } "j" =
      ({ idx := 5, idx_str := "" }, .rerender) ∧
    onKeyPress 3 { idx := 1, idx_str := "5" } "j" =
      ({ idx := 1, idx_str := "" }, .alert "") ∧
    onKeyPress 3 { idx := 1, idx_str := "" } "j" =
      ({ idx := 1, idx_str := "" }, .ignored) := by
  refine ⟨?_, ?_, (c5_confirm_jump 3 _).2.2 rfl⟩
  · rw [(c5_confirm_jump 9 { idx := 0, idx_str := "5" }).2.1 (by decide) (by decide)]
    decide
  · rw [(c5_confirm_jump 3 { idx := 1, idx_str := "5" }).1 (by decide) (by decide)]

/-- C6 as stated is false: the claim says the digit buffer is empty
after every non-digit event, but a `next` press at the last index
returns early, before the `self.idx_str = ""` at line 253, so the
buffer "5" survives. -/
theorem c6_counterexample :
    pyIsdigit "n" = false ∧
    (onKeyPress 1 { idx := 1, idx_str := "5" } "n").1.idx_str = "5" := by
  decide

/-- C6 amended: the pendingDigits buffer is cleared on `escape`, on a
confirm-jump with a non-empty buffer (whether in range or out of
range), and on `next`/`previous` when they actually move the position;
it is retained (the whole state is unchanged) on unrecognized non-digit
keys, and retained on `next` at the last index, `previous` at index 0
and confirm-jump with an empty buffer. -/
theorem c6_amended_buffer_clear (len : Nat) (s : NavState) (key : String)
    (hnd : pyIsdigit key = false) :
    ((key = "escape" ∨ (key = "j" ∧ s.idx_str ≠ "") ∨ (key = "n" ∧ s.idx < len) ∨
        (key = "p" ∧ 0 < s.idx)) →
      (onKeyPress len s key).1.idx_str = "") ∧
    ((key ≠ "escape" ∧ key ≠ "j" ∧ key ≠ "n" ∧ key ≠ "p") →
      onKeyPress len s key = (s, .ignored)) := by
  constructor
  · rintro (rfl | ⟨rfl, hne⟩ | ⟨rfl, hlt⟩ | ⟨rfl, hpos⟩)
    · simp [onKeyPress, pyIsdigit_escape]
    · by_cases hgt : len < pyInt s.idx_str <;>
        simp [onKeyPress, pyIsdigit_j, hne, hgt]
    · simp [onKeyPress, pyIsdigit_n, Nat.not_le.mpr hlt]
    · simp [onKeyPress, pyIsdigit_p, Nat.pos_iff_ne_zero.mp hpos]
  · rintro ⟨h1, h2, h3, h4⟩
    simp [onKeyPress, hnd, h1, h2, h3, h4]

theorem c6_amended_buffer_clear_witness :
    (onKeyPress 3 { idx := 1, idx_str := "7" } "escape").1.idx_str = "" ∧
    onKeyPress 3 { idx := 1, idx_str := "7" } "x" =
      ({ idx := 1, idx_str := "7" }, .ignored) :=
  ⟨(c6_amended_buffer_clear 3 { idx := 1, idx_str := "7" } "escape" (by decide)).1
      (Or.inl rfl),
   (c6_amended_buffer_clear 3 { idx := 1, idx_str := "7" } "x" (by decide)).2
      (by refine ⟨?_, ?_, ?_, ?_⟩ <;> decide)⟩

/-- The fixed letter alphabet of `Plotter._annotations` (line 186). -/
def annotate_txt : String := "ABCDEFGHIJKLM"

/-- Python string indexing `s[i]`: the character at `i`, `none` past
the end (Python raises `IndexError`). -/
def charAt (s : String) (i : Nat) : Option Char :=
  s.data.get? i

/-- One letter label placed by `self._annotate_fn`: the letter, the
series position and price it is anchored at, and the `xytext` offset. -/
structure Label where
  text : Char
  x : Nat
  y : Int
  dx : Int
  dy : Int
  deriving Repr, DecidableEq

/-- Body of the `for i, line in enumerate(lines)` loop of
`Plotter._annotations` (lines 201-211) for one entry: reduce the entry
to its first anchor `(x, y)`, read `df.at[x, "High"]` (KeyError when
`x` is not in the index), place the letter `annotate_txt[i]` at
`(df.index.get_loc(x), y)` with vertical offset `5` when `y` equals
that bar's high and `-10` otherwise. -/
def annotatePoint (df : List Bar) (i : Nat) (line : LineEntry) :
    Except String Label :=
  match firstAnchor line with
  | none => .error "IndexError: line[0]"
  | some (x, y) =>
    match df.find? (fun b => b.ts = x) with
    | none => .error "KeyError: df.at"
    | some bar =>
      let loc : Int := if y = bar.high then 5 else -10
      match charAt annotate_txt i, getLoc df x with
      | some t, some pos => .ok { text := t, x := pos, y := y, dx := 0, dy := loc }
      | _, _ => .error "IndexError: annotate_txt[i]"

/-- The annotation loop, threading the enumeration index. -/
def annotateLines (df : List Bar) : Nat → List LineEntry → Except String (List Label)
  | _, [] => .ok []
  | i, l :: ls => do
    let a ← annotatePoint df i l
    let rest ← annotateLines df (i + 1) ls
    pure (a :: rest)

/-- Model of `Plotter._annotations` (lines 185-211): label the last bar's close
(`df.at[last_idx, "Close"]`, or the `last_close` argument when it is
supplied and non-zero — Python's `if not last_close:` treats `0` as
absent) with `annotate_txt[len(lines)]` at offset `(10, -10)`, then
label each entry of `lines` in order with `annotate_txt[i]`.  An empty
series (`df.index[-1]`) or an exhausted alphabet is an `IndexError`,
modelled as `.error`.  The close label is issued first, as in the
source. -/
def _annotations (df : List Bar) (lines : List LineEntry) (last_close : Option Int) :
    Except String (List Label) :=
  match df.getLast? with
  | none => .error "IndexError: df.index[-1]"
  | some b =>
    match getLoc df b.ts with
    | none => .error "KeyError: get_loc"
    | some last_pos =>
      let lc : Int :=
        match last_close with
        | none => b.close
        | some c => if c = 0 then b.close else c
      match charAt annotate_txt lines.length with
      | none => .error "IndexError: annotate_txt"
      | some t =>
        match annotateLines df 0 lines with
        | .error e => .error e
        | .ok rest =>
            .ok ({ text := t, x := last_pos, y := lc, dx := 10, dy := -10 } :: rest)

theorem annotatePoint_text {df : List Bar} {i : Nat} {l : LineEntry} {a : Label}
    (h : annotatePoint df i l = .ok a) :
    charAt annotate_txt i = some a.text := by
  unfold annotatePoint at h
  rcases hfa : firstAnchor l with _ | ⟨x, y⟩ <;> simp [hfa] at h
  rcases hf : df.find? (fun b => b.ts = x) with _ | bar <;> simp [hf] at h
  rcases hc : charAt annotate_txt i with _ | t <;>
    rcases hg : getLoc df x with _ | pos <;> simp [hc, hg] at h
  subst h
  simpa using hc

theorem annotateLines_spec {df : List Bar} :
    ∀ (ls : List LineEntry) (i : Nat) (out : List Label),
      annotateLines df i ls = .ok out →
      out.map Label.text = (annotate_txt.data.drop i).take ls.length ∧
      out.length = ls.length := by
  intro ls
  induction ls with
  | nil =>
      intro i out h
      simp [annotateLines] at h
      simp [← h]
  | cons l ls ih =>
      intro i out h
      simp only [annotateLines, bind, Except.bind] at h
      rcases ha : annotatePoint df i l with e | a <;> rw [ha] at h
      · exact absurd h (by simp)
      · rcases hr : annotateLines df (i + 1) ls with e | rest <;> rw [hr] at h
        · exact absurd h (by simp)
        · simp only [pure, Except.pure, Except.ok.injEq] at h
          obtain ⟨hmap, hlen⟩ := ih (i + 1) rest hr
          have htext := annotatePoint_text ha
          have hidx : annotate_txt.data.get? i = some a.text := htext
          have hlt : i < annotate_txt.data.length := (List.get?_eq_some.mp hidx).1
          have hdrop : annotate_txt.data.drop i =
              a.text :: annotate_txt.data.drop (i + 1) := by
            rw [List.drop_eq_get_cons hlt]
            congr 1
            have := List.get?_eq_get hlt
            rw [hidx] at this
            exact (Option.some.injEq ..).mp this.symm
          subst h
          simp [hdrop, hmap, hlen]

theorem annotations_spec {df : List Bar} {lines : List LineEntry} {lc : Option Int}
    {labels : List Label} (h : _annotations df lines lc = .ok labels) :
    ∃ c, charAt annotate_txt lines.length = some c ∧
      labels.map Label.text = c :: annotate_txt.data.take lines.length ∧
      labels.length = lines.length + 1 := by
  unfold _annotations at h
  rcases hb : df.getLast? with _ | b <;> simp [hb] at h
  rcases hg : getLoc df b.ts with _ | last_pos <;> simp [hg] at h
  rcases hc : charAt annotate_txt lines.length with _ | t <;> simp [hc] at h
  rcases hr : annotateLines df 0 lines with e | rest <;> simp [hr] at h
  obtain ⟨hmap, hlen⟩ := annotateLines_spec lines 0 rest hr
  refine ⟨t, rfl, ?_, ?_⟩
  · simp [← h, hmap]
  · simp [← h, hlen]

theorem letters_nodup {k : Nat} {c : Char}
    (hc : annotate_txt.data.get? k = some c) :
    (c :: annotate_txt.data.take k).Nodup := by
  have hnd : annotate_txt.data.Nodup := by decide
  have hc' : annotate_txt.data[k]? = some c := by
    rw [← List.get?_eq_getElem?]
    exact hc
  have htake : annotate_txt.data.take (k + 1) = annotate_txt.data.take k ++ [c] := by
    rw [List.take_succ, hc']
    rfl
  have h1 : (annotate_txt.data.take (k + 1)).Nodup :=
    List.Sublist.nodup (List.take_sublist _ _) hnd
  rw [htake] at h1
  exact (List.perm_append_singleton c _).nodup h1

/-- C8: for an ordered annotation source of length k (each multi-point
segment reduced to its first anchor point), a successful annotation
pass assigns the letters of "ABCDEFGHIJKLM" in order — letter i to the
i-th point — and labels the last bar's close (or the supplied
referenceClose) with the letter at index k: one more letter than the
points, with no repeated letters. -/
theorem c8_letter_assignment (df : List Bar) (lines : List LineEntry)
    (lc : Option Int) (labels : List Label)
    (h : _annotations df lines lc = .ok labels) :
    ∃ c, charAt annotate_txt lines.length = some c ∧
      labels.map Label.text = c :: annotate_txt.data.take lines.length ∧
      labels.length = lines.length + 1 ∧
      (labels.map Label.text).Nodup := by
  obtain ⟨c, hc, hmap, hlen⟩ := annotations_spec h
  exact ⟨c, hc, hmap, hlen, hmap ▸ letters_nodup hc⟩

theorem c8_letter_assignment_witness :
    ∃ c, charAt annotate_txt [LineEntry.pt 0 10].length = some c ∧
      ([{ text := 'B', x := 1, y := 11, dx := 10, dy := -10 },
        { text := 'A', x := 0, y := 10, dx := 0, dy := 5 }] : List Label).map
          Label.text = c :: annotate_txt.data.take [LineEntry.pt 0 10].length ∧
      ([{ text := 'B', x := 1, y := 11, dx := 10, dy := -10 },
        { text := 'A', x := 0, y := 10, dx := 0, dy := 5 }] : List Label).length =
        [LineEntry.pt 0 10].length + 1 ∧
      (([{ text := 'B', x := 1, y := 11, dx := 10, dy := -10 },
         { text := 'A', x := 0, y := 10, dx := 0, dy := 5 }] : List Label).map
           Label.text).Nodup :=
  c8_letter_assignment [{ ts := 0, high := 10, close := 9 },
    { ts := 1, high := 12, close := 11 }] [.pt 0 10] none _ rfl

/-- C10: the annotation letter alphabet is the fixed 13-character
string "ABCDEFGHIJKLM"; annotation succeeds only when the annotation
source has at most 12 entries, and for every source with 13 or more
entries the final-bar label lookup indexes past the end of the
alphabet, so `_annotations` fails with an error instead of continuing
the letter sequence. -/
theorem c10_alphabet_bound :
    annotate_txt = "ABCDEFGHIJKLM" ∧ annotate_txt.data.length = 13 ∧
    (∀ (df : List Bar) (lines : List LineEntry) (lc : Option Int)
      (labels : List Label), _annotations df lines lc = .ok labels →
        lines.length ≤ 12) ∧
    (∀ (df : List Bar) (lines : List LineEntry) (lc : Option Int),
      13 ≤ lines.length → ∃ e, _annotations df lines lc = .error e) := by
  refine ⟨rfl, by decide, ?_, ?_⟩
  · intro df lines lc labels h
    obtain ⟨c, hc, -, -⟩ := annotations_spec h
    have hlt : lines.length < annotate_txt.data.length := (List.get?_eq_some.mp hc).1
    have h13 : annotate_txt.data.length = 13 := by decide
    omega
  · intro df lines lc hlen
    have hc : charAt annotate_txt lines.length = none := by
      apply List.get?_eq_none.mpr
      have h13 : annotate_txt.data.length = 13 := by decide
      omega
    unfold _annotations
    rcases hb : df.getLast? with _ | b
    · exact ⟨_, rfl⟩
    · rcases hg : getLoc df b.ts with _ | p <;> simp [hg, hc]

theorem c10_alphabet_bound_witness :
    [LineEntry.pt 0 10].length ≤ 12 ∧
    ∃ e, _annotations [] (List.replicate 13 (LineEntry.pt 0 10)) none = .error e :=
  ⟨c10_alphabet_bound.2.2.1 [{ ts := 0, high := 10, close := 9 },
      { ts := 1, high := 12, close := 11 }] [.pt 0 10] none
      [{ text := 'B', x := 1, y := 11, dx := 10, dy := -10 },
       { text := 'A', x := 0, y := 10, dx := 0, dy := 5 }] rfl,
   c10_alphabet_bound.2.2.2 [] (List.replicate 13 (.pt 0 10)) none (by decide)⟩

/-- C3 as stated is false: for a Symmetric-triangle record the overlay
takes its drawn lines from `dct["extra_lines"]`, not from the primary
lines, so with 2 primary lines and no extra lines the build yields 0
lines, not 2. -/
theorem c3_counterexample :
    buildOverlay
      { sym := "ACME", pattern := "Symmetric"
        lines := [.seg [(0, 5), (4, 8)], .seg [(1, 2), (4, 4)]]
        extra_lines := some []
        touch_points := [], startTs := 0, endTs := 4, y_close := none } =
      .ok { lines := []
            colors := .uniform "midnightblue"
            annotationSource := [.seg [(0, 5), (4, 8)], .seg [(1, 2), (4, 4)]] } ∧
    ([] : List LineEntry).length ≠ 2 :=
  ⟨rfl, by decide⟩

/-- C3 amended: for a Symmetric-triangle record with 2 primary lines
and no extra lines (an empty extraLines list), the overlay build
yields the record's empty extraLines — 0 lines, not 2 — with a uniform
color and an annotation source equal to the 2 primary lines, and
rendering produces exactly 3 letter labels (one per primary line plus
one for the final bar) whenever the annotation pass succeeds. -/
theorem c3_amended_triangle_scenario (dct : PatternRecord) (df : List Bar)
    (hpat : dct.pattern = "Symmetric")
    (hex : dct.extra_lines = some [])
    (hlen : dct.lines.length = 2) :
    buildOverlay dct =
      .ok { lines := []
            colors := .uniform "midnightblue"
            annotationSource := dct.lines } ∧
    (∀ labels, _annotations df dct.lines dct.y_close = .ok labels →
      labels.length = 3) := by
  constructor
  · simp [buildOverlay, isTriangle, hpat, hex]
  · intro labels h
    obtain ⟨-, -, -, hl⟩ := annotations_spec h
    rw [hl, hlen]

theorem c3_amended_triangle_scenario_witness :
    buildOverlay
      { sym := "ACME", pattern := "Symmetric"
        lines := [.seg [(0, 5), (4, 8)], .seg [(1, 2), (4, 4)]]
        extra_lines := some []
        touch_points := [], startTs := 0, endTs := 4, y_close := none } =
      .ok { lines := []
            colors := .uniform "midnightblue"
            annotationSource := [.seg [(0, 5), (4, 8)], .seg [(1, 2), (4, 4)]] } ∧
    (∀ labels,
      _annotations
        [{ ts := 0, high := 5, close := 4 }, { ts := 1, high := 3, close := 2 },
         { ts := 2, high := 6, close := 5 }, { ts := 3, high := 7, close := 6 },
         { ts := 4, high := 8, close := 7 }]
        [.seg [(0, 5), (4, 8)], .seg [(1, 2), (4, 4)]] none = .ok labels →
      labels.length = 3) :=
  c3_amended_triangle_scenario
    { sym := "ACME", pattern := "Symmetric"
      lines := [.seg [(0, 5), (4, 8)], .seg [(1, 2), (4, 4)]]
      extra_lines := some []
      touch_points := [], startTs := 0, endTs := 4, y_close := none }
    [{ ts := 0, high := 5, close := 4 }, { ts := 1, high := 3, close := 2 },
     { ts := 2, high := 6, close := 5 }, { ts := 3, high := 7, close := 6 },
     { ts := 4, high := 8, close := 7 }] rfl rfl rfl

theorem c3_scenario_eval :
    ∃ labels,
      _annotations
        [{ ts := 0, high := 5, close := 4 }, { ts := 1, high := 3, close := 2 },
         { ts := 2, high := 6, close := 5 }, { ts := 3, high := 7, close := 6 },
         { ts := 4, high := 8, close := 7 }]
        [.seg [(0, 5), (4, 8)], .seg [(1, 2), (4, 4)]] none = .ok labels ∧
      labels.length = 3 :=
  ⟨_, rfl, rfl⟩

/-- View-window selection of `Plotter.plot` (lines 115-131).  In
"expand" mode: locate `dct["start"]` and `dct["end"]` in the series
index (a multi-match `slice` collapses to its first position, an
absent key is a KeyError), pad by 120 bars on each side with
`start = max(start - 120, 0)` (here `Int` subtraction clamped by
`toNat`) and `end = min(end + 120, len(df))`, and return
`df.iloc[start:end]`.  In any other mode the series is returned
unchanged. -/
def selectWindow (df : List Bar) (mode : String) (startTs endTs : Nat) :
    Except String (List Bar) :=
  if mode = "expand" then
    match getLoc df startTs, getLoc df endTs with
    | some s, some e =>
        .ok ((df.take (min (e + 120) df.length)).drop ((s : Int) - 120).toNat)
    | _, _ => .error "KeyError: get_loc"
  else
    .ok df

/-- C7: in "expand" mode, for a record whose start/end timestamps
resolve (first-match) to series positions i and j in a series of
length L, the displayed sub-series is exactly the contiguous index
range [max(i-120,0), min(j+120,L)) — stated via truncated `Nat`
subtraction, `i - 120 = max(i-120,0)` — clamping rather than failing
at the series ends; in "default" mode the full series is returned
unchanged. -/
theorem c7_view_window (df : List Bar) (startTs endTs i j : Nat)
    (hi : getLoc df startTs = some i) (hj : getLoc df endTs = some j) :
    (∃ w, selectWindow df "expand" startTs endTs = .ok w ∧
      ∀ k, w.get? k =
        if i - 120 + k < min (j + 120) df.length
        then df.get? (i - 120 + k) else none) ∧
    selectWindow df "default" startTs endTs = .ok df := by
  constructor
  · refine ⟨(df.take (min (j + 120) df.length)).drop (i - 120), ?_, ?_⟩
    · have ht : ((i : Int) - 120).toNat = i - 120 := by omega
      simp [selectWindow, hi, hj, ht]
    · intro k
      rw [List.get?_drop]
      by_cases hk : i - 120 + k < min (j + 120) df.length
      · rw [if_pos hk, List.get?_take hk]
      · rw [if_neg hk]
        apply List.get?_eq_none.mpr
        rw [List.length_take]
        omega
  · simp [selectWindow]

theorem c7_view_window_witness :
    (∃ w, selectWindow
        [{ ts := 0, high := 1, close := 1 }, { ts := 1, high := 2, close := 2 },
         { ts := 2, high := 3, close := 3 }] "expand" 1 2 = .ok w ∧
      ∀ k, w.get? k =
        if 1 - 120 + k < min (2 + 120)
            ([{ ts := 0, high := 1, close := 1 }, { ts := 1, high := 2, close := 2 },
              { ts := 2, high := 3, close := 3 }] : List Bar).length
        then ([{ ts := 0, high := 1, close := 1 }, { ts := 1, high := 2, close := 2 },
               { ts := 2, high := 3, close := 3 }] : List Bar).get? (1 - 120 + k)
        else none) ∧
    selectWindow
      [{ ts := 0, high := 1, close := 1 }, { ts := 1, high := 2, close := 2 },
       { ts := 2, high := 3, close := 3 }] "default" 1 2 =
      .ok [{ ts := 0, high := 1, close := 1 }, { ts := 1, high := 2, close := 2 },
           { ts := 2, high := 3, close := 3 }] :=
  c7_view_window
    [{ ts := 0, high := 1, close := 1 }, { ts := 1, high := 2, close := 2 },
     { ts := 2, high := 3, close := 3 }] 1 2 1 2 rfl rfl

/-- The data-access collaborator (`AbstractLoader`): a timeframe string
(`loader.tf`) and a symbol lookup (`loader.get`) returning the price
series or `None` when the symbol's data is unavailable. -/
structure Loader where
  tf : String
  get : String → Option (List Bar)

/-- The chart-content computation of `Plotter.plot` (lines 96-183):
uppercase the symbol, resolve its series (`ValueError` with message
`"Unable to load data for {sym}"` when the loader returns `None`,
lines 110-113), narrow the view window in "expand" mode (lines
115-131), build the overlay lines and colors (lines 133-138), choose
the annotation line data (lines 162-165, bundled in the overlay), and
compute the letter labels (line 167).  The mplfinance rendering calls
themselves are outside the model; the function returns exactly the
displayed sub-series, overlay and labels they are given. -/
def plot (loader : Loader) (mode : String) (dct : PatternRecord) :
    Except String (List Bar × Overlay × List Label) :=
  match loader.get dct.sym.toUpper with
  | none => .error ("Unable to load data for " ++ dct.sym.toUpper)
  | some df0 =>
    match selectWindow df0 mode dct.startTs dct.endTs with
    | .error e => .error e
    | .ok df =>
      match buildOverlay dct with
      | .error e => .error e
      | .ok ov =>
        match _annotations df ov.annotationSource dct.y_close with
        | .error e => .error e
        | .ok labels => .ok (df, ov, labels)

/-- Model of `Plotter.save` (lines 59-94): uppercase the symbol, resolve its
series (`ValueError` with message `"Unable to load data for {sym}"`
when the loader returns `None`, lines 67-70), compute the colors from
`dct["pattern"]` and `dct["lines"]` (lines 72-75 — unlike `plot`, the
extra lines are not merged in), and build the output path
`{sym}_{pattern}_{tf}.png` in the save folder.  The non-interactive
mplfinance call is outside the model. -/
def save (loader : Loader) (save_folder : String) (dct : PatternRecord) :
    Except String (String × Colors) :=
  match loader.get dct.sym.toUpper with
  | none => .error ("Unable to load data for " ++ dct.sym.toUpper)
  | some _ =>
    let colors : Colors :=
      if isTriangle dct.pattern then .uniform "midnightblue"
      else .perLine ("green" :: List.replicate (dct.lines.length - 1) "midnightblue")
    .ok (save_folder ++ "/" ++ dct.sym.toUpper ++ "_" ++ dct.pattern ++ "_" ++
           loader.tf ++ ".png", colors)

/-- C9: whenever the loader returns absent for the requested
uppercase-normalized symbol, both the interactive render (`plot`) and
the batch save (`save`) fail immediately with the
"Unable to load data for" error — the absence is surfaced to the
caller, not retried and not silently skipped — and no chart content or
output path is produced for that record. -/
theorem c9_missing_series (loader : Loader) (mode folder : String)
    (dct : PatternRecord) (habs : loader.get dct.sym.toUpper = none) :
    plot loader mode dct = .error ("Unable to load data for " ++ dct.sym.toUpper) ∧
    save loader folder dct = .error ("Unable to load data for " ++ dct.sym.toUpper) := by
  constructor
  · simp [plot, habs]
  · simp [save, habs]

theorem c9_missing_series_witness :
    plot { tf := "daily", get := fun _ => none } "default"
      { sym := "hdfc", pattern := "UPTL", lines := [.pt 0 1]
        extra_lines := none, touch_points := [.pt 0 1]
        startTs := 0, endTs := 0, y_close := none } =
      .error ("Unable to load data for " ++ ("hdfc" : String).toUpper) ∧
    save { tf := "daily", get := fun _ => none } "images"
      { sym := "hdfc", pattern := "UPTL", lines := [.pt 0 1]
        extra_lines := none, touch_points := [.pt 0 1]
        startTs := 0, endTs := 0, y_close := none } =
      .error ("Unable to load data for " ++ ("hdfc" : String).toUpper) :=
  c9_missing_series { tf := "daily", get := fun _ => none } "default" "images"
    { sym := "hdfc", pattern := "UPTL", lines := [.pt 0 1]
      extra_lines := none, touch_points := [.pt 0 1]
      startTs := 0, endTs := 0, y_close := none } rfl
